import Mathlib

/-!
Shallow embedding of `src/agimus_hpp/estimation.py` (class `Estimation`),
the asynchronous frame-synchronisation and constraint-based estimation
pipeline, together with theorems settling the specification claims.

Timestamps (`rospy.Time`) are modelled as naturals (ROS times are
non-negative and totally ordered); numeric values are rationals.
-/

/-- A ROS timestamp (`rospy.Time`), totally ordered. -/
abbrev Stamp := Nat

/-- The mutable frame-aggregation attributes of the `Estimation` object
(lines 81-87): the sealed ("last") frame, the open ("current") frame and
the ready flag. -/
structure FrameState where
  last_stamp_is_ready : Bool
  last_stamp : Stamp
  last_visual_tag_constraints : List String
  current_stamp : Stamp
  current_visual_tag_constraints : List String
deriving DecidableEq

/-- The frame-aggregation logic of `get_visual_tag` (lines 277-312):
a stale stamp returns immediately (line 279); a strictly newer stamp
seals the current frame into `last_*`, sets the ready flag and opens a
fresh frame at `stamp` (lines 302-309); in all non-stale cases the new
constraint names are appended to the (possibly fresh) current frame
(line 310). `names` are the constraint names built by
`_get_transformation_constraint` for this detection. -/
def get_visual_tag (s : FrameState) (stamp : Stamp) (names : List String) :
    FrameState :=
  if stamp < s.current_stamp then s
  else if s.current_stamp < stamp then
    { last_stamp_is_ready := true
      last_stamp := s.current_stamp
      last_visual_tag_constraints := s.current_visual_tag_constraints
      current_stamp := stamp
      current_visual_tag_constraints := names }
  else
    { s with current_visual_tag_constraints :=
        s.current_visual_tag_constraints ++ names }

/-- Running a sequence of `get_visual_tag` callbacks and collecting, in
order, every value assigned to `last_stamp` at a rollover (line 304),
i.e. the sealed-frame timestamps made available for consumption. The
guard `s.current_stamp < t` is the rollover condition of line 302. -/
def runVisualTags (s : FrameState) :
    List (Stamp × List String) → List Stamp
  | [] => []
  | (t, ns) :: rest =>
    (if s.current_stamp < t then [s.current_stamp] else []) ++
      runVisualTags (get_visual_tag s t ns) rest

lemma get_visual_tag_current_mono (s : FrameState) (t : Stamp)
    (ns : List String) :
    s.current_stamp ≤ (get_visual_tag s t ns).current_stamp := by
  unfold get_visual_tag
  split_ifs with h1 h2
  · exact le_refl _
  · exact le_of_lt h2
  · exact le_refl _

lemma runVisualTags_ge (inputs : List (Stamp × List String)) :
    ∀ s x, x ∈ runVisualTags s inputs → s.current_stamp ≤ x := by
  induction inputs with
  | nil => intro s x hx; simp [runVisualTags] at hx
  | cons p rest ih =>
    intro s x hx
    obtain ⟨t, ns⟩ := p
    simp only [runVisualTags, List.mem_append] at hx
    rcases hx with h | h
    · split_ifs at h with hlt
      · simp only [List.mem_singleton] at h
        exact le_of_eq h.symm
      · simp at h
    · exact le_trans (get_visual_tag_current_mono s t ns) (ih _ x h)

lemma runVisualTags_sorted (inputs : List (Stamp × List String)) :
    ∀ s, List.Sorted (· ≤ ·) (runVisualTags s inputs) := by
  induction inputs with
  | nil => intro s; simp [runVisualTags]
  | cons p rest ih =>
    intro s
    obtain ⟨t, ns⟩ := p
    simp only [runVisualTags]
    split_ifs with hlt
    · rw [List.singleton_append]
      refine List.sorted_cons.mpr ⟨?_, ih _⟩
      intro b hb
      exact le_trans (get_visual_tag_current_mono s t ns)
        (runVisualTags_ge rest _ b hb)
    · rw [List.nil_append]
      exact ih _

/-- C1: for every sequence of visual-tag detections, the sealed-frame
timestamps (`last_stamp` values made ready) form a non-decreasing
sequence, and a detection strictly older than the open frame leaves the
aggregator state entirely unchanged (no constraint added anywhere). -/
theorem visual_tag_seal_monotone_and_stale_discarded
    (s0 : FrameState) (inputs : List (Stamp × List String)) :
    List.Sorted (· ≤ ·) (runVisualTags s0 inputs) ∧
    ∀ (s : FrameState) (t : Stamp) (ns : List String),
      t < s.current_stamp → get_visual_tag s t ns = s := by
  refine ⟨runVisualTags_sorted inputs s0, ?_⟩
  intro s t ns ht
  unfold get_visual_tag
  rw [if_pos ht]

/-- Concrete instance of C1: a stale detection (stamp 3 against an open
frame at 5) is discarded without modifying the state. -/
theorem visual_tag_stale_discarded_witness :
    get_visual_tag ⟨false, 0, [], 5, ["k"]⟩ 3 ["a", "b"] =
      ⟨false, 0, [], 5, ["k"]⟩ :=
  (visual_tag_seal_monotone_and_stale_discarded ⟨false, 0, [], 5, ["k"]⟩
    []).2 ⟨false, 0, [], 5, ["k"]⟩ 3 ["a", "b"] (by decide)

/-- The frame-aggregation logic of `get_base_pose_estimation`
(lines 314-340): a stale stamp returns immediately (line 316); the
base-pose constraint names are appended to the open frame unless the
first name is already present (lines 328-329); when visual tags are
disabled the open frame — including the just-added base constraint —
is sealed at the open frame's timestamp and a fresh empty frame starts
at `stamp` (lines 331-338). -/
def get_base_pose_estimation (s : FrameState) (visual_tags_enabled : Bool)
    (stamp : Stamp) (names : List String) : FrameState :=
  if stamp < s.current_stamp then s
  else
    let cur :=
      match names.head? with
      | some n0 =>
        if n0 ∈ s.current_visual_tag_constraints then
          s.current_visual_tag_constraints
        else s.current_visual_tag_constraints ++ names
      | none => s.current_visual_tag_constraints
    if visual_tags_enabled then
      { s with current_visual_tag_constraints := cur }
    else
      { last_stamp_is_ready := true
        last_stamp := s.current_stamp
        last_visual_tag_constraints := cur
        current_stamp := stamp
        current_visual_tag_constraints := [] }

/-- Counterexample to C6: with visual tags disabled, an open frame at
timestamp 0 and a base-pose detection at timestamp 1, a frame is sealed
(ready flag set) but its timestamp is 0 — the previously open frame's
timestamp — not the detection's timestamp 1 as the claim states. -/
theorem base_pose_seals_at_old_stamp :
    (get_base_pose_estimation ⟨false, 0, [], 0, []⟩ false 1
        ["base/c"]).last_stamp_is_ready = true ∧
    (get_base_pose_estimation ⟨false, 0, [], 0, []⟩ false 1
        ["base/c"]).last_stamp = 0 ∧
    (0 : Stamp) ≠ 1 := by
  refine ⟨?_, ?_, by decide⟩ <;> rfl

/-- C6 amended: with visual tags disabled, a non-stale base-pose
detection at `t` immediately seals a frame — ready flag set without
waiting for a further detection — but the sealed timestamp is the
previously open frame's `current_stamp` (not `t`); the sealed constraint
list contains the new base-pose constraint (when not already present),
and the new open frame starts at `t` with an empty constraint list. -/
theorem base_pose_disabled_seals_immediately (s : FrameState) (t : Stamp)
    (names : List String) (hstale : ¬ t < s.current_stamp) :
    (get_base_pose_estimation s false t names).last_stamp_is_ready = true ∧
    (get_base_pose_estimation s false t names).last_stamp =
      s.current_stamp ∧
    (get_base_pose_estimation s false t names).current_stamp = t ∧
    (get_base_pose_estimation s false t names).current_visual_tag_constraints
      = [] ∧
    (∀ n0, names.head? = some n0 →
      n0 ∉ s.current_visual_tag_constraints →
      (get_base_pose_estimation s false t
          names).last_visual_tag_constraints =
        s.current_visual_tag_constraints ++ names) := by
  unfold get_base_pose_estimation
  rw [if_neg hstale]
  refine ⟨rfl, rfl, rfl, rfl, ?_⟩
  intro n0 hhead hnot
  simp [hhead, hnot]

/-- Concrete instance of the amended C6: one non-stale base-pose
detection with tags disabled immediately yields a ready frame sealed at
the old open-frame timestamp 5 containing the new constraint. -/
theorem base_pose_disabled_seals_immediately_witness :
    (get_base_pose_estimation ⟨false, 0, [], 5, ["a"]⟩ false 7
        ["base/c"]).last_stamp_is_ready = true ∧
    (get_base_pose_estimation ⟨false, 0, [], 5, ["a"]⟩ false 7
        ["base/c"]).last_stamp = 5 ∧
    (get_base_pose_estimation ⟨false, 0, [], 5, ["a"]⟩ false 7
        ["base/c"]).last_visual_tag_constraints = ["a", "base/c"] := by
  have h := base_pose_disabled_seals_immediately ⟨false, 0, [], 5, ["a"]⟩ 7
    ["base/c"] (by decide)
  exact ⟨h.1, h.2.1, h.2.2.2.2 "base/c" rfl (by decide)⟩

/-- A rigid transform as carried by a `geometry_msgs/Transform` message:
translation and quaternion components (lines 259-265). -/
structure Transform where
  tx : ℚ
  ty : ℚ
  tz : ℚ
  qx : ℚ
  qy : ℚ
  qz : ℚ
  qw : ℚ
deriving DecidableEq

/-- The constraint names created by `_get_transformation_constraint`
(lines 250-275): joints are qualified with the robot name when they
contain no "/"; with `orientationWeight == 1.` a single 6-DOF
transformation constraint `T_<name>` is created (lines 266-268),
otherwise a position constraint `P_<name>` and a scaled orientation
constraint `sO_<name>` (lines 269-274). The transform `T` is the target
value passed to the solver and does not influence the names. -/
def get_transformation_constraint (robot_name joint1 joint2 pfx : String)
    (T : Transform) (orientationWeight : ℚ) : List String :=
  let j1 := if joint1.contains '/' then joint1
            else robot_name ++ "/" ++ joint1
  let j2 := if joint2.contains '/' then joint2
            else robot_name ++ "/" ++ joint2
  let nm := pfx ++ j1 ++ "_" ++ j2
  if orientationWeight = 1 then ["T_" ++ nm]
  else
    let _ := T
    ["P_" ++ nm, "sO_" ++ nm]

/-- C7: for every transform and every orientation weight in [0,1], the
builder returns exactly one constraint name when the weight equals 1 and
exactly two names otherwise. -/
theorem transformation_constraint_count (robot_name joint1 joint2 pfx :
    String) (T : Transform) (w : ℚ) (h0 : 0 ≤ w) (h1 : w ≤ 1) :
    (w = 1 → (get_transformation_constraint robot_name joint1 joint2 pfx
        T w).length = 1) ∧
    (w ≠ 1 → (get_transformation_constraint robot_name joint1 joint2 pfx
        T w).length = 2) := by
  constructor <;> intro hw <;>
    simp [get_transformation_constraint, hw]

/-- Concrete instance of C7: weight 1 gives one name, weight 1/2 gives
two names. -/
theorem transformation_constraint_count_witness :
    (get_transformation_constraint "r" "a" "b" "" ⟨0, 0, 0, 0, 0, 0, 1⟩
        1).length = 1 ∧
    (get_transformation_constraint "r" "a" "b" "" ⟨0, 0, 0, 0, 0, 0, 1⟩
        (1/2)).length = 2 :=
  ⟨(transformation_constraint_count "r" "a" "b" "" ⟨0, 0, 0, 0, 0, 0, 1⟩ 1
      (by norm_num) (by norm_num)).1 rfl,
   (transformation_constraint_count "r" "a" "b" "" ⟨0, 0, 0, 0, 0, 0, 1⟩
      (1/2) (by norm_num) (by norm_num)).2 (by norm_num)⟩

/-- The orientation weight computed in `get_visual_tag` (lines 286-294)
for a unit quaternion `(qx, qy, qz, qw)`: `distW = 1`,
`oriW = -(R e_z)_z` where `(R e_z)_z = qw^2 + qz^2 - qx^2 - qy^2` is the
camera-z component of the rotated tag z-axis, `tagsize = 0.063 * 4`, and
the weight `s = tagsize * oriW * distW` is passed unmodified as
`orientationWeight` to `_get_transformation_constraint` (line 300). -/
def get_visual_tag_weight (qx qy qz qw : ℚ) : ℚ :=
  let distW : ℚ := 1
  let oriW : ℚ := -(qw ^ 2 + qz ^ 2 - qx ^ 2 - qy ^ 2)
  let tagsize : ℚ := (63 / 1000) * 4
  tagsize * oriW * distW

/-- Counterexample to C9: the identity quaternion is a unit quaternion
for which `get_visual_tag` computes the strictly negative orientation
weight -63/250, which is passed to the constraint builder — the code
performs no clamping. -/
theorem visual_tag_weight_can_be_negative :
    (0 : ℚ) ^ 2 + 0 ^ 2 + 0 ^ 2 + 1 ^ 2 = 1 ∧
    get_visual_tag_weight 0 0 0 1 = -(63 / 250) ∧
    get_visual_tag_weight 0 0 0 1 < 0 := by
  refine ⟨by norm_num, ?_, ?_⟩ <;> norm_num [get_visual_tag_weight]

/-- C9 amended: the orientation weight is not clamped; for a unit
quaternion it is non-negative exactly when the rotated tag z-axis has
non-positive camera-z component, equivalently when
`qx^2 + qy^2 >= 1/2`. -/
theorem visual_tag_weight_sign (qx qy qz qw : ℚ)
    (hunit : qx ^ 2 + qy ^ 2 + qz ^ 2 + qw ^ 2 = 1) :
    0 ≤ get_visual_tag_weight qx qy qz qw ↔
      1 / 2 ≤ qx ^ 2 + qy ^ 2 := by
  unfold get_visual_tag_weight
  constructor <;> intro h <;> nlinarith [h, hunit]

/-- Concrete instance of the amended C9: for the unit quaternion
(1,0,0,0) the computed weight is non-negative. -/
theorem visual_tag_weight_sign_witness :
    0 ≤ get_visual_tag_weight 1 0 0 0 :=
  (visual_tag_weight_sign 1 0 0 0 (by norm_num)).mpr (by norm_num)

/-- The handling of one 1-DOF joint in `get_joint_state`
(lines 236-241): given declared bounds `(lo, hi)` and the measured value
`q`, a warning is logged when `q - lo < -1e-3` or `q - hi > 1e-3`, and
the stored joint configuration is always `[min hi (max lo q)]`.
Returns (stored configuration, warning emitted). -/
def get_joint_state_1d (lo hi q : ℚ) : List ℚ × Bool :=
  let warned : Bool :=
    decide (q - lo < -(1 / 1000)) || decide (q - hi > 1 / 1000)
  ([min hi (max lo q)], warned)

/-- Counterexample to C8: with bounds [0, 1] and input 1 + 0.5e-3
(within the 1e-3 tolerance), no warning is emitted but the value is
clamped to 1, not passed through unclamped as the claim states. -/
theorem joint_state_within_tolerance_still_clamped :
    (get_joint_state_1d 0 1 (1 + 1 / 2000)).2 = false ∧
    (get_joint_state_1d 0 1 (1 + 1 / 2000)).1 = [1] ∧
    (get_joint_state_1d 0 1 (1 + 1 / 2000)).1 ≠ [1 + 1 / 2000] := by
  refine ⟨?_, ?_, ?_⟩ <;> norm_num [get_joint_state_1d]

/-- C8 amended: for a 1-DOF joint with `lo ≤ hi`, an input exceeding the
upper bound by 0.5e-3 (within the 1e-3 tolerance) is accepted without a
warning but is still clamped to `hi`; an input exceeding the bound by
0.1 (beyond tolerance) triggers a warning and is clamped to `hi`. -/
theorem joint_state_bound_handling (lo hi : ℚ) (h : lo ≤ hi) :
    (get_joint_state_1d lo hi (hi + 1 / 2000)).2 = false ∧
    (get_joint_state_1d lo hi (hi + 1 / 2000)).1 = [hi] ∧
    (get_joint_state_1d lo hi (hi + 1 / 10)).2 = true ∧
    (get_joint_state_1d lo hi (hi + 1 / 10)).1 = [hi] := by
  have hmax1 : max lo (hi + 1 / 2000) = hi + 1 / 2000 :=
    max_eq_right (by linarith)
  have hmin1 : min hi (hi + 1 / 2000) = hi := min_eq_left (by linarith)
  have hmax2 : max lo (hi + 1 / 10) = hi + 1 / 10 :=
    max_eq_right (by linarith)
  have hmin2 : min hi (hi + 1 / 10) = hi := min_eq_left (by linarith)
  refine ⟨?_, ?_, ?_, ?_⟩ <;>
    simp only [get_joint_state_1d, hmax1, hmin1, hmax2, hmin2,
      Bool.or_eq_false_iff, Bool.or_eq_true, decide_eq_false_iff_not,
      decide_eq_true_eq, not_lt, List.cons.injEq, and_true]
  · constructor <;> linarith
  · right; linarith

/-- Concrete instance of the amended C8: bounds [0, 1], within-tolerance
input accepted silently but clamped; out-of-tolerance input warned and
clamped. -/
theorem joint_state_bound_handling_witness :
    (get_joint_state_1d 0 1 (1 + 1 / 2000)).2 = false ∧
    (get_joint_state_1d 0 1 (1 + 1 / 10)).2 = true :=
  ⟨(joint_state_bound_handling 0 1 (by norm_num)).1,
   (joint_state_bound_handling 0 1 (by norm_num)).2.2.1⟩

/-- Outcome of the graph-mode state resolution inside
`_initialize_constraints` (lines 186-201). -/
structure ResolveOutcome where
  state_id : Nat
  last_state_id : Option Nat
  published_state_id : Option Nat
deriving DecidableEq

/-- The graph-mode state resolution of `_initialize_constraints`
(lines 186-201): `getNode` is `some s` when `manip.graph.getNode`
succeeds on the current configuration and `none` when it raises
`UserException`; `cached` is the `last_state_id` attribute (`none`
before it is first assigned); `default_state_id` is the ROS parameter.
Tier 1 uses the solver's answer (line 191), tier 2 the cache
(lines 194-196), tier 3 the default (lines 197-199); the result is
always stored in `last_state_id` (line 200) and published on the
`state_id` topic (line 201). -/
def initialize_constraints_graph (getNode : Option Nat)
    (cached : Option Nat) (default_state_id : Nat) : ResolveOutcome :=
  let sid :=
    match getNode with
    | some s => s
    | none =>
      match cached with
      | some s => s
      | none => default_state_id
  { state_id := sid
    last_state_id := some sid
    published_state_id := some sid }

/-- C3: state resolution is total and ordered — the solver's answer wins
when present; otherwise the cache wins when present (never the default);
otherwise the default is used; in every case the resolved state is
written to the cache and published. -/
theorem state_resolution_total_and_ordered (getNode cached : Option Nat)
    (default_state_id : Nat) :
    (∀ s, getNode = some s →
      (initialize_constraints_graph getNode cached
        default_state_id).state_id = s) ∧
    (∀ s, getNode = none → cached = some s →
      (initialize_constraints_graph getNode cached
        default_state_id).state_id = s) ∧
    (∀ s, getNode = none → cached = some s → s ≠ default_state_id →
      (initialize_constraints_graph getNode cached
        default_state_id).state_id ≠ default_state_id) ∧
    (getNode = none → cached = none →
      (initialize_constraints_graph getNode cached
        default_state_id).state_id = default_state_id) ∧
    (initialize_constraints_graph getNode cached
        default_state_id).last_state_id =
      some ((initialize_constraints_graph getNode cached
        default_state_id).state_id) ∧
    (initialize_constraints_graph getNode cached
        default_state_id).published_state_id =
      some ((initialize_constraints_graph getNode cached
        default_state_id).state_id) := by
  cases getNode <;> cases cached <;>
    simp [initialize_constraints_graph]

/-- Concrete instance of C3: tier-1 failure with a populated cache
resolves to the cached state 4, not the default 9. -/
theorem state_resolution_witness :
    (initialize_constraints_graph none (some 4) 9).state_id = 4 ∧
    (initialize_constraints_graph none (some 4) 9).state_id ≠ 9 :=
  ⟨(state_resolution_total_and_ordered none (some 4) 9).2.1 4 rfl rfl,
   (state_resolution_total_and_ordered none (some 4) 9).2.2.1 4 rfl rfl
     (by decide)⟩

/-- A configuration vector of the kinematic model. -/
abbrev Config := List ℚ

/-- Where, if anywhere, an exception is raised inside the `try` body of
`estimation` (lines 117-148): during `hpp()` / `getCurrentConfig` /
`_initialize_constraints` (lines 118-121), during `applyConstraints`
(line 124), during `optimize` (line 127), during `isConfigValid`
(line 138), or during `publish_state` after the semantic topic was
already published (lines 142-144). -/
inductive ExnPoint
  | noExn
  | atInit
  | atApply
  | atOptimize
  | atValidate
  | atPublishState
deriving DecidableEq

/-- Severity of a log message emitted by the cycle. -/
inductive LogLevel
  | debug
  | info
  | warn
  | err
deriving DecidableEq

/-- One log message: severity and which source line family emitted it. -/
structure LogEvent where
  level : LogLevel
  tag : String
deriving DecidableEq

/-- Oracle for one estimation cycle: the answers of the external HPP
solver and whether/where the body raises. `configAfterApply` /
`configAfterOpt` are the solver's current configuration after the
corresponding external call (the calls may mutate solver state). -/
structure EstOracle where
  projOk : Bool
  q_projected : Config
  configAfterApply : Config
  optOk : Bool
  q_estimated : Config
  configAfterOpt : Config
  errNorm : ℚ
  valid : Bool
  exn : ExnPoint
deriving DecidableEq

/-- Observable outcome of one estimation cycle. -/
structure EstOutcome where
  last_stamp_is_ready : Bool
  optimizeRan : Bool
  published : Option Config
  modelConfig : Config
  logs : List LogEvent
  exnCaught : Bool
deriving DecidableEq

/-- One cycle of `estimation` (lines 114-154), given the configuration
`q_current` read at line 119 and the solver oracle. The `except` clause
(lines 149-151) catches any exception and logs it at error level; the
`finally` clause (lines 152-154) always clears `last_stamp_is_ready`.
On projection failure (lines 145-148) the configuration is restored to
`q_current` via `setCurrentConfig`, nothing is published, no
optimization runs, and a throttled warning is logged. On optimizer
failure (lines 128-136) the residual norm is compared with 1e-2 to pick
warning versus informational logging, and the estimated configuration
is still published (line 142). A collision report (lines 138-140) only
adds a warning. -/
def estimation (q_current : Config) (o : EstOracle) : EstOutcome :=
  if o.exn = ExnPoint.atInit then
    { last_stamp_is_ready := false, optimizeRan := false,
      published := none, modelConfig := q_current,
      logs := [⟨LogLevel.err, "exception"⟩], exnCaught := true }
  else if o.exn = ExnPoint.atApply then
    { last_stamp_is_ready := false, optimizeRan := false,
      published := none, modelConfig := o.configAfterApply,
      logs := [⟨LogLevel.err, "exception"⟩], exnCaught := true }
  else if o.projOk then
    if o.exn = ExnPoint.atOptimize then
      { last_stamp_is_ready := false, optimizeRan := true,
        published := none, modelConfig := o.configAfterOpt,
        logs := [⟨LogLevel.err, "exception"⟩], exnCaught := true }
    else
      let optLogs : List LogEvent :=
        if o.optOk then []
        else if o.errNorm > 1 / 100 then
          [⟨LogLevel.warn, "optimisation failed"⟩,
           ⟨LogLevel.debug, "estimated == projected"⟩,
           ⟨LogLevel.debug, "error"⟩]
        else
          [⟨LogLevel.info, "optimisation failed"⟩,
           ⟨LogLevel.debug, "error"⟩]
      if o.exn = ExnPoint.atValidate then
        { last_stamp_is_ready := false, optimizeRan := true,
          published := none, modelConfig := o.configAfterOpt,
          logs := optLogs ++ [⟨LogLevel.err, "exception"⟩],
          exnCaught := true }
      else
        let valLogs : List LogEvent :=
          if o.valid then [] else [⟨LogLevel.warn, "in collision"⟩]
        if o.exn = ExnPoint.atPublishState then
          { last_stamp_is_ready := false, optimizeRan := true,
            published := some o.q_estimated,
            modelConfig := o.configAfterOpt,
            logs := optLogs ++ valLogs ++ [⟨LogLevel.err, "exception"⟩],
            exnCaught := true }
        else
          { last_stamp_is_ready := false, optimizeRan := true,
            published := some o.q_estimated,
            modelConfig := o.configAfterOpt,
            logs := optLogs ++ valLogs, exnCaught := false }
  else
    { last_stamp_is_ready := false, optimizeRan := false,
      published := none, modelConfig := q_current,
      logs := [⟨LogLevel.warn, "could not apply the constraints"⟩],
      exnCaught := false }

/-- The trigger condition of the continuous-estimation loop `spin`
(line 105): `estimation` runs only when both the continuous flag and the
frame-ready flag hold. -/
def spinTriggers (run_continuous_estimation last_stamp_is_ready : Bool) :
    Bool :=
  run_continuous_estimation && last_stamp_is_ready

/-- C2: after any estimation cycle, whatever its outcome, the
frame-ready flag is cleared, so the continuous loop's trigger condition
fails on a second attempt with no new sensor data. -/
theorem estimation_clears_ready_flag (q : Config) (o : EstOracle)
    (rc : Bool) :
    (estimation q o).last_stamp_is_ready = false ∧
    spinTriggers rc (estimation q o).last_stamp_is_ready = false := by
  have h : (estimation q o).last_stamp_is_ready = false := by
    unfold estimation
    split_ifs <;> rfl
  exact ⟨h, by simp [spinTriggers, h]⟩

/-- C4: when projection fails (and no exception precedes it), the
optimizer does not run, nothing is published, the model configuration is
restored to the one read at the start of the cycle, and the only log is
a throttled warning. -/
theorem projection_failure_aborts_cycle (q : Config) (o : EstOracle)
    (hproj : o.projOk = false)
    (h1 : o.exn ≠ ExnPoint.atInit) (h2 : o.exn ≠ ExnPoint.atApply) :
    (estimation q o).optimizeRan = false ∧
    (estimation q o).published = none ∧
    (estimation q o).modelConfig = q ∧
    (estimation q o).logs =
      [⟨LogLevel.warn, "could not apply the constraints"⟩] := by
  unfold estimation
  simp [h1, h2, hproj]

/-- Concrete instance of C4: a failed projection leaves the model
configuration at the initially read [0] and publishes nothing. -/
theorem projection_failure_aborts_cycle_witness :
    (estimation [0]
        ⟨false, [], [1], false, [], [2], 0, true,
          ExnPoint.noExn⟩).modelConfig = [0] ∧
    (estimation [0]
        ⟨false, [], [1], false, [], [2], 0, true,
          ExnPoint.noExn⟩).published = none := by
  have h := projection_failure_aborts_cycle [0]
    ⟨false, [], [1], false, [], [2], 0, true, ExnPoint.noExn⟩
    rfl (by decide) (by decide)
  exact ⟨h.2.2.1, h.2.1⟩

/-- C5: when projection succeeds but the optimizer reports failure (and
no exception occurs), the outcome is classified against the 1e-2
residual threshold — above gives a warning-level signal, at or below an
informational one — and in both cases the estimated configuration is
still published. -/
theorem optimizer_failure_classified_and_still_published (q : Config)
    (o : EstOracle) (hproj : o.projOk = true) (hopt : o.optOk = false)
    (hexn : o.exn = ExnPoint.noExn) :
    (estimation q o).published = some o.q_estimated ∧
    (1 / 100 < o.errNorm →
      LogEvent.mk LogLevel.warn "optimisation failed" ∈
        (estimation q o).logs) ∧
    (o.errNorm ≤ 1 / 100 →
      LogEvent.mk LogLevel.info "optimisation failed" ∈
        (estimation q o).logs) := by
  unfold estimation
  rw [hexn]
  simp only [reduceCtorEq, if_false, hproj, if_true, hopt]
  refine ⟨by simp, fun hnorm => ?_, fun hnorm => ?_⟩
  · rw [if_pos (by exact hnorm)]
    simp
  · rw [if_neg (by exact not_lt.mpr hnorm)]
    simp

/-- Concrete instance of C5: residual norm 1 (above threshold) keeps the
estimated configuration published with a warning signal present. -/
theorem optimizer_failure_witness :
    (estimation []
        ⟨true, [1], [1], false, [2], [2], 1, true,
          ExnPoint.noExn⟩).published = some [2] ∧
    LogEvent.mk LogLevel.warn "optimisation failed" ∈
      (estimation []
        ⟨true, [1], [1], false, [2], [2], 1, true,
          ExnPoint.noExn⟩).logs := by
  have h := optimizer_failure_classified_and_still_published []
    ⟨true, [1], [1], false, [2], [2], 1, true, ExnPoint.noExn⟩
    rfl rfl rfl
  exact ⟨h.1, h.2.1 (by norm_num)⟩

/-- Python exception classes relevant to the callbacks:
`CORBA.UserException` (caught by `get_joint_state`), `AssertionError`
(raised by the size assertions, not caught by the `except UserException`
clause) and any other `Exception`. -/
inductive PyExn
  | userExn
  | assertExn
  | otherExn
deriving DecidableEq

/-- A fragment of Python control flow sufficient for the mutex
discipline of the four callbacks: acquiring and releasing `self.mutex`,
an external call that may raise, sequencing, `try/finally` and
`try/except E/finally`. -/
inductive Act
  | acquire
  | release
  | ext (e : Option PyExn)
  | seq (a b : Act)
  | tryFinally (body fin : Act)
  | tryExceptFinally (body : Act) (catches : PyExn → Bool)
      (handler fin : Act)

/-- Python semantics of `Act`: given whether the mutex is held on entry,
returns whether it is held on exit and the exception (if any) that
propagates out. A `finally` block always runs; an exception raised in it
replaces a pending one; `except` runs its handler only for exception
classes it catches. -/
def runAct : Act → Bool → Bool × Option PyExn
  | Act.acquire, _ => (true, none)
  | Act.release, _ => (false, none)
  | Act.ext e, l => (l, e)
  | Act.seq a b, l =>
    match runAct a l with
    | (l2, none) => runAct b l2
    | (l2, some e) => (l2, some e)
  | Act.tryFinally body fin, l =>
    let r := runAct body l
    let rf := runAct fin r.1
    (rf.1, match rf.2 with
           | some e2 => some e2
           | none => r.2)
  | Act.tryExceptFinally body catches handler fin, l =>
    let r := runAct body l
    let rh : Bool × Option PyExn :=
      match r.2 with
      | none => (r.1, none)
      | some e => if catches e then runAct handler r.1 else (r.1, some e)
    let rf := runAct fin rh.1
    (rf.1, match rf.2 with
           | some e2 => some e2
           | none => rh.2)

/-- Mutex structure of `estimation` (lines 114-154): acquire, then a
`try` body (any exception possible), an `except Exception` handler
(logging), and a `finally` clearing the ready flag and releasing. -/
def estimationAct (bodyExn : Option PyExn) : Act :=
  Act.seq Act.acquire
    (Act.tryExceptFinally (Act.ext bodyExn) (fun _ => true)
      (Act.ext none)
      (Act.seq (Act.ext none) Act.release))

/-- Mutex structure of `get_joint_state` (lines 221-248): acquire, a
`try` body whose size assertions may raise `AssertionError` and whose
HPP calls may raise `UserException`, an `except UserException` handler
(logging), and a `finally` releasing. -/
def getJointStateAct (bodyExn : Option PyExn) : Act :=
  Act.seq Act.acquire
    (Act.tryExceptFinally (Act.ext bodyExn)
      (fun e => match e with
        | PyExn.userExn => true
        | _ => false)
      (Act.ext none)
      Act.release)

/-- Mutex structure of `get_visual_tag` (lines 277-312): stamp check and
weight computation outside the lock (may raise before the lock is
taken), then `try: acquire; body finally: release` — the acquire is
itself inside the `try`. -/
def getVisualTagAct (preExn bodyExn : Option PyExn) : Act :=
  Act.seq (Act.ext preExn)
    (Act.tryFinally (Act.seq Act.acquire (Act.ext bodyExn)) Act.release)

/-- Mutex structure of `get_base_pose_estimation` (lines 314-340): stamp
check outside the lock, then acquire followed by
`try: body finally: release`. -/
def getBasePoseAct (preExn bodyExn : Option PyExn) : Act :=
  Act.seq (Act.ext preExn)
    (Act.seq Act.acquire (Act.tryFinally (Act.ext bodyExn) Act.release))

/-- C10: each of the four mutex-guarded operations terminates with the
mutex released for every outcome of its external calls, including when
an exception propagates out; in particular an `AssertionError` in
`get_joint_state` propagates (it is not caught by the `UserException`
handler) yet the lock is still released. -/
theorem callbacks_always_release_mutex
    (e1 e2 e3 e4 : Option PyExn) (p3 p4 : Option PyExn) :
    (runAct (estimationAct e1) false).1 = false ∧
    (runAct (getJointStateAct e2) false).1 = false ∧
    (runAct (getVisualTagAct p3 e3) false).1 = false ∧
    (runAct (getBasePoseAct p4 e4) false).1 = false ∧
    runAct (getJointStateAct (some PyExn.assertExn)) false =
      (false, some PyExn.assertExn) := by
  refine ⟨?_, ?_, ?_, ?_, rfl⟩
  · rcases e1 with _ | e
    · rfl
    · cases e <;> rfl
  · rcases e2 with _ | e
    · rfl
    · cases e <;> rfl
  · rcases p3 with _ | p
    · rcases e3 with _ | e
      · rfl
      · cases e <;> rfl
    · cases p <;> rfl
  · rcases p4 with _ | p
    · rcases e4 with _ | e
      · rfl
      · cases e <;> rfl
    · cases p <;> rfl
